import Mathlib

/-!
Verification development for the SF2LV2 synthesizer plugin runtime
(src/synth_plugin.c).  The C code is shallowly embedded: the plugin
instance struct becomes a Lean structure, each section of the audio
callback becomes a pure function from the pre-state and the connected
port values to the post-state together with the list of synthesis-engine
calls it issues, and the FluidSynth API surface is reified as an
inductive type of engine calls.  C float port values are modelled as
exact rationals (the code only compares them bit-exactly and scales them
to integer MIDI CC values; NaN payloads are outside the model), and C
int casts truncate toward zero.
-/

namespace SF2LV2

/-- Bank/program pair stored for each SoundFont preset
(struct BankProgram in synth_plugin.c). -/
structure BankProgram where
  bank : Nat
  prog : Nat
deriving DecidableEq

/-- One call into the FluidSynth engine, reifying exactly the
fluid_synth_* calls the plugin runtime issues. -/
inductive EngineCall where
  | all_notes_off (chan : Int)
  | all_sounds_off (chan : Int)
  | bank_select (chan : Int) (bank : Nat)
  | sfont_select (chan : Int) (sfont : Int)
  | program_change (chan : Int) (prog : Nat)
  | cc (chan : Int) (num : Nat) (val : Int)
  | set_gain (gain : Rat)
  | noteon (chan : Int) (key : Nat) (vel : Nat)
  | noteoff (chan : Int) (key : Nat)
  | pitch_bend (chan : Int) (val : Int)
  | write_float (count : Nat)
deriving DecidableEq

/-- One LV2 atom event: the type check (body.type == urids.midi_Event)
is modelled by the isMidi flag, and the up-to-three raw MIDI bytes. -/
structure MidiEvent where
  isMidi : Bool
  b0 : Nat
  b1 : Nat
  b2 : Nat
deriving DecidableEq

/-- Values read through the connected port pointers during one run call.
The C code dereferences the six control ports unconditionally but
null-checks program_port and level_port, hence the Option for those. -/
structure Ports where
  cutoff : Rat
  resonance : Rat
  attack : Rat
  decay : Rat
  sustain : Rat
  release : Rat
  level : Option Rat
  program : Option Rat
  events : List MidiEvent

/-- The mutable plugin instance state (struct Plugin in synth_plugin.c),
restricted to the fields the run path reads or writes.  The C array
controls_touched[0..5] is split into six named Bool fields in index
order (cutoff, resonance, attack, decay, sustain, release). -/
structure Plugin where
  current_program : Int
  program_count : Nat
  programs : List BankProgram
  sfont_id : Int
  last_cutoff : Rat
  last_resonance : Rat
  prev_cutoff : Rat
  prev_resonance : Rat
  prev_attack : Rat
  prev_decay : Rat
  prev_sustain : Rat
  prev_release : Rat
  touched_cutoff : Bool
  touched_resonance : Bool
  touched_attack : Bool
  touched_decay : Bool
  touched_sustain : Bool
  touched_release : Bool
  controls_initialized : Bool
  preset_just_changed : Bool

/-- C cast of a value to int: truncation toward zero
(Int.div is T-division, matching C integer conversion). -/
def cTrunc (q : Rat) : Int := q.num.tdiv (q.den : Int)

/-! ### Preset table construction (load_soundfont, lines 151-186) -/

/-- The preset-counting loop of load_soundfont (lines 152-159): for
bank in 0..=128 and prog in 0..=127, increment the count whenever the
SoundFont has a preset there.  The abstract predicate present models
fluid_sfont_get_preset(sfont, bank, prog) != NULL. -/
def countPresets (present : Nat → Nat → Bool) : Nat :=
  (List.range 129).foldl
    (fun acc bank =>
      (List.range 128).foldl
        (fun acc2 prog => if present bank prog then acc2 + 1 else acc2) acc)
    0

/-- The preset-storing loop of load_soundfont (lines 172-184): the same
scan order, appending the bank/program pair of every populated slot. -/
def scanPrograms (present : Nat → Nat → Bool) : List BankProgram :=
  (List.range 129).flatMap fun bank =>
    ((List.range 128).filter (fun prog => present bank prog)).map
      fun prog => { bank := bank, prog := prog }

/-- Strict lexicographic order on bank/program pairs. -/
def bpLt (a b : BankProgram) : Prop :=
  a.bank < b.bank ∨ (a.bank = b.bank ∧ a.prog < b.prog)

/-- load_soundfont (lines 131-187), modelled as a function of the
environment responses: sfloadId is the result of fluid_synth_sfload
(none = FLUID_FAILED), sfontOk models fluid_synth_get_sfont returning
non-null, allocOk models the calloc of the programs array succeeding
(glibc calloc returns a non-null pointer even for zero presets, so a
zero count does not by itself make allocOk false).  On success it
returns the SoundFont id, the program count and the preset table. -/
def load_soundfont (sfloadId : Option Int) (sfontOk : Bool) (allocOk : Bool)
    (present : Nat → Nat → Bool) : Option (Int × Nat × List BankProgram) :=
  match sfloadId with
  | none => none
  | some sid =>
    if !sfontOk then none
    else
      let cnt := countPresets present
      if !allocOk then none
      else some (sid, cnt, scanPrograms present)

/-- The plugin state as instantiate leaves it (lines 245-343): calloc
zeroes every field, then current_program, last_cutoff and
last_resonance are set to -1 and the flags are cleared. -/
def initialPlugin (sfid : Int) (cnt : Nat) (tbl : List BankProgram) : Plugin :=
  { current_program := -1
    program_count := cnt
    programs := tbl
    sfont_id := sfid
    last_cutoff := -1
    last_resonance := -1
    prev_cutoff := 0
    prev_resonance := 0
    prev_attack := 0
    prev_decay := 0
    prev_sustain := 0
    prev_release := 0
    touched_cutoff := false
    touched_resonance := false
    touched_attack := false
    touched_decay := false
    touched_sustain := false
    touched_release := false
    controls_initialized := false
    preset_just_changed := false }

/-- instantiate (lines 245-343), modelled over the environment
responses: mapOk is the presence of the urid:map host feature,
settingsOk/synthOk are the FluidSynth settings and synth constructors
succeeding, allocPluginOk and allocBuffersOk are the callocs of the
instance struct and the audio buffers, and the load_soundfont inputs as
above.  Returns none exactly when the C code returns NULL. -/
def instantiate (allocPluginOk mapOk settingsOk synthOk : Bool)
    (sfloadId : Option Int) (sfontOk allocProgramsOk allocBuffersOk : Bool)
    (present : Nat → Nat → Bool) : Option Plugin :=
  if !allocPluginOk then none
  else if !mapOk then none
  else if !settingsOk then none
  else if !synthOk then none
  else
    match load_soundfont sfloadId sfontOk allocProgramsOk present with
    | none => none
    | some (sid, cnt, tbl) =>
      if !allocBuffersOk then none
      else some (initialPlugin sid cnt tbl)

/-! ### Program change handling (handle_program_change, lines 199-240) -/

/-- handle_program_change (lines 199-240).  engineResult models the
return value of fluid_synth_program_change; the C code only logs on
failure, so the parameter does not influence the result.  An
out-of-range program is rejected with no engine calls and no state
change; otherwise the engine is silenced, the bank and program stored
at the requested index are selected, the six control CCs (21-26) are
reset to 0, the touched flags are cleared and preset_just_changed is
raised. -/
def handle_program_change (p : Plugin) (program : Int) (engineResult : Bool) :
    Plugin × List EngineCall :=
  if program < 0 ∨ (p.program_count : Int) ≤ program then (p, [])
  else
    let slot := p.programs.getD program.toNat { bank := 0, prog := 0 }
    let _ := engineResult
    ({ p with
        touched_cutoff := false
        touched_resonance := false
        touched_attack := false
        touched_decay := false
        touched_sustain := false
        touched_release := false
        preset_just_changed := true },
     [EngineCall.all_notes_off (-1), EngineCall.all_sounds_off (-1),
      EngineCall.bank_select 0 slot.bank, EngineCall.sfont_select 0 p.sfont_id,
      EngineCall.program_change 0 slot.prog,
      EngineCall.cc 0 21 0, EngineCall.cc 0 22 0, EngineCall.cc 0 23 0,
      EngineCall.cc 0 24 0, EngineCall.cc 0 25 0, EngineCall.cc 0 26 0])

/-! ### The run callback, section by section (run, lines 404-546) -/

/-- Control initialization block (lines 410-418): on the first block
(controls not initialized and no pending preset change) the previous
values are seeded from the ports without engine calls. -/
def initControls (p : Plugin) (ports : Ports) : Plugin :=
  if !p.controls_initialized && !p.preset_just_changed then
    { p with
        prev_cutoff := ports.cutoff
        prev_resonance := ports.resonance
        prev_attack := ports.attack
        prev_decay := ports.decay
        prev_sustain := ports.sustain
        prev_release := ports.release
        controls_initialized := true }
  else p

/-- One control-change block (e.g. lines 423-430 for cutoff): if the
port value differs from the previous one, mark the control touched,
record the new value and issue one CC with the mapped value.  Returns
(new previous value, new touched flag, calls). -/
def diffStep (prev : Rat) (touched : Bool) (port : Rat) (num : Nat)
    (mapv : Rat → Int) : (Rat × Bool) × List EngineCall :=
  if port ≠ prev then
    let touched' := true
    let prev' := port
    ((prev', touched'),
     if touched' then [EngineCall.cc 0 num (mapv port)] else [])
  else ((prev, touched), [])

/-- The six control-change blocks (lines 421-476), guarded by
controls_initialized.  The cutoff mapping is inverted
((1 - value) * 127, line 427-428); the others scale by 127. -/
def controlDiff (p : Plugin) (ports : Ports) : Plugin × List EngineCall :=
  if p.controls_initialized then
    let r0 := diffStep p.prev_cutoff p.touched_cutoff ports.cutoff 21
      (fun x => cTrunc ((1 - x) * 127))
    let r1 := diffStep p.prev_resonance p.touched_resonance ports.resonance 22
      (fun x => cTrunc (x * 127))
    let r2 := diffStep p.prev_attack p.touched_attack ports.attack 23
      (fun x => cTrunc (x * 127))
    let r3 := diffStep p.prev_decay p.touched_decay ports.decay 24
      (fun x => cTrunc (x * 127))
    let r4 := diffStep p.prev_sustain p.touched_sustain ports.sustain 25
      (fun x => cTrunc (x * 127))
    let r5 := diffStep p.prev_release p.touched_release ports.release 26
      (fun x => cTrunc (x * 127))
    ({ p with
        prev_cutoff := r0.1.1, touched_cutoff := r0.1.2
        prev_resonance := r1.1.1, touched_resonance := r1.1.2
        prev_attack := r2.1.1, touched_attack := r2.1.2
        prev_decay := r3.1.1, touched_decay := r3.1.2
        prev_sustain := r4.1.1, touched_sustain := r4.1.2
        prev_release := r5.1.1, touched_release := r5.1.2 },
     r0.2 ++ r1.2 ++ r2.2 ++ r3.2 ++ r4.2 ++ r5.2)
  else (p, [])

/-- Program-change section of run (lines 481-495): if the program port
is connected, round its value, and when it differs from
current_program and is non-negative call handle_program_change, then
unconditionally store the new index and refresh every previous control
value from the ports. -/
def programSection (p : Plugin) (ports : Ports) (engineResult : Bool) :
    Plugin × List EngineCall :=
  match ports.program with
  | none => (p, [])
  | some v =>
    let new_program : Int := cTrunc (v + 1/2)
    if new_program ≠ p.current_program ∧ 0 ≤ new_program then
      let r := handle_program_change p new_program engineResult
      ({ r.1 with
          current_program := new_program
          prev_cutoff := ports.cutoff
          prev_resonance := ports.resonance
          prev_attack := ports.attack
          prev_decay := ports.decay
          prev_sustain := ports.sustain
          prev_release := ports.release }, r.2)
    else (p, [])

/-- Level section of run (lines 498-501): if the level port is
connected, set the master gain every block, unconditionally. -/
def levelSection (ports : Ports) : List EngineCall :=
  match ports.level with
  | none => []
  | some lv => [EngineCall.set_gain lv]

/-- MIDI event dispatch for one event (lines 507-525): switch on the
status nibble; note-on with velocity 0 becomes note-off; the engine
channel argument is the constant 0 in every case. -/
def dispatchMidi (b0 b1 b2 : Nat) : List EngineCall :=
  let status := b0 &&& 0xF0
  if status = 0x90 then
    if b2 > 0 then [EngineCall.noteon 0 b1 b2] else [EngineCall.noteoff 0 b1]
  else if status = 0x80 then [EngineCall.noteoff 0 b1]
  else if status = 0xB0 then [EngineCall.cc 0 b1 b2]
  else if status = 0xE0 then
    [EngineCall.pitch_bend 0 ((b2 <<< 7 ||| b1 : Int) - 8192)]
  else []

/-- The event loop of run (lines 504-527): dispatch each event whose
atom type is the MIDI event URID. -/
def midiSection (events : List MidiEvent) : List EngineCall :=
  events.flatMap fun e => if e.isMidi then dispatchMidi e.b0 e.b1 e.b2 else []

/-- The chunked render loop of run (lines 529-545), with explicit fuel.
One unit of fuel per loop entry suffices because every iteration
consumes at least one remaining frame.  Each element of the result is
the (offset, chunk_size) of one fluid_synth_write_float call followed
by the two memcpys into the host buffers at that offset. -/
def renderLoopFuel : Nat → Nat → Nat → List (Nat × Nat)
  | 0, _, _ => []
  | fuel + 1, remaining, offset =>
    if remaining = 0 then []
    else
      let chunk := min remaining 64
      (offset, chunk) :: renderLoopFuel fuel (remaining - chunk) (offset + chunk)

/-- The render loop started on remaining = sample_count, offset = 0
is renderLoop sample_count 0. -/
def renderLoop (remaining offset : Nat) : List (Nat × Nat) :=
  renderLoopFuel remaining remaining offset

/-- The plugin state after the control-initialization block, the six
control-diff blocks, and the line clearing preset_just_changed
(line 478), i.e. just before the program-change section of run. -/
def preProgramState (p : Plugin) (ports : Ports) : Plugin :=
  { (controlDiff (initControls p ports) ports).1 with
      preset_just_changed := false }

/-- The whole run callback (lines 404-546): control initialization,
control diffs, clearing preset_just_changed, program changes, level,
MIDI dispatch, then chunked rendering, concatenating the engine calls
in exactly that order. -/
def runModel (p : Plugin) (ports : Ports) (engineResult : Bool)
    (sample_count : Nat) : Plugin × List EngineCall :=
  let rc := controlDiff (initControls p ports) ports
  let rp := programSection (preProgramState p ports) ports engineResult
  (rp.1,
   rc.2 ++ rp.2 ++ levelSection ports ++ midiSection ports.events
     ++ (renderLoop sample_count 0).map fun w => EngineCall.write_float w.2)

/-- N consecutive run calls with the same port values, concatenating
the engine-call traces. -/
def runN (p : Plugin) (ports : Ports) (engineResult : Bool)
    (sample_count : Nat) : Nat → Plugin × List EngineCall
  | 0 => (p, [])
  | n + 1 =>
    let r1 := runModel p ports engineResult sample_count
    let r2 := runN r1.1 ports engineResult sample_count n
    (r2.1, r1.2 ++ r2.2)

/-! ### Observation helpers -/

/-- CC number of the k-th cached control, in controls_touched index
order: 21 cutoff, 22 resonance, 23 attack, 24 decay, 25 sustain,
26 release. -/
def ccNum : Fin 6 → Nat
  | 0 => 21
  | 1 => 22
  | 2 => 23
  | 3 => 24
  | 4 => 25
  | 5 => 26

/-- Port value of the k-th cached control. -/
def portOf (ports : Ports) : Fin 6 → Rat
  | 0 => ports.cutoff
  | 1 => ports.resonance
  | 2 => ports.attack
  | 3 => ports.decay
  | 4 => ports.sustain
  | 5 => ports.release

/-- Cached previous value of the k-th control. -/
def prevOf (p : Plugin) : Fin 6 → Rat
  | 0 => p.prev_cutoff
  | 1 => p.prev_resonance
  | 2 => p.prev_attack
  | 3 => p.prev_decay
  | 4 => p.prev_sustain
  | 5 => p.prev_release

/-- Whether an engine call is a CC with the given controller number. -/
def isCCNum (n : Nat) : EngineCall → Bool
  | EngineCall.cc _ m _ => m == n
  | _ => false

/-- The MIDI channel argument of an engine call issued by the event
dispatcher, when it has one. -/
def chanOf : EngineCall → Option Int
  | EngineCall.noteon c _ _ => some c
  | EngineCall.noteoff c _ => some c
  | EngineCall.cc c _ _ => some c
  | EngineCall.pitch_bend c _ => some c
  | _ => none

/-! ### Render-loop lemmas -/

theorem renderLoopFuel_congr : ∀ (f1 f2 r off : Nat), r ≤ f1 → r ≤ f2 →
    renderLoopFuel f1 r off = renderLoopFuel f2 r off := by
  intro f1
  induction f1 with
  | zero =>
    intro f2 r off h1 _
    interval_cases r
    cases f2 <;> simp [renderLoopFuel]
  | succ f1 ih =>
    intro f2 r off h1 h2
    match r, f2 with
    | 0, 0 => rfl
    | 0, f2 + 1 => simp [renderLoopFuel]
    | r + 1, f2 + 1 =>
      simp only [renderLoopFuel, Nat.succ_ne_zero, if_false]
      have hc : 1 ≤ min (r + 1) 64 := le_min (Nat.succ_le_succ (Nat.zero_le r)) (by omega)
      have hrc : r + 1 - min (r + 1) 64 ≤ f1 := by omega
      have hrc2 : r + 1 - min (r + 1) 64 ≤ f2 := by omega
      rw [ih f2 _ _ hrc hrc2]

/-- Unfolding equation of the render loop: it satisfies exactly the
recurrence of the C while loop. -/
theorem renderLoop_eq (n off : Nat) :
    renderLoop n off =
      if n = 0 then []
      else (off, min n 64) :: renderLoop (n - min n 64) (off + min n 64) := by
  match n with
  | 0 => rfl
  | n + 1 =>
    simp only [renderLoop, renderLoopFuel, Nat.succ_ne_zero, if_false]
    have hc : 1 ≤ min (n + 1) 64 := le_min (Nat.succ_le_succ (Nat.zero_le n)) (by omega)
    rw [renderLoopFuel_congr n (n + 1 - min (n + 1) 64) (n + 1 - min (n + 1) 64) _
      (by omega) (by omega)]

theorem renderLoop_cover : ∀ (n off : Nat),
    (renderLoop n off).flatMap (fun w => List.range' w.1 w.2) =
      List.range' off n := by
  intro n
  induction n using Nat.strong_induction_on with
  | _ n ih =>
    intro off
    match n with
    | 0 => simp [renderLoop, renderLoopFuel]
    | n + 1 =>
      rw [renderLoop_eq]
      simp only [Nat.succ_ne_zero, if_false, List.flatMap_cons]
      have hc : 1 ≤ min (n + 1) 64 := le_min (Nat.succ_le_succ (Nat.zero_le n)) (by omega)
      have hlt : n + 1 - min (n + 1) 64 < n + 1 := by omega
      rw [ih _ hlt]
      have : n + 1 - min (n + 1) 64 + min (n + 1) 64 = n + 1 := by omega
      calc List.range' off (min (n + 1) 64) ++
            List.range' (off + min (n + 1) 64) (n + 1 - min (n + 1) 64)
          = List.range' off (n + 1 - min (n + 1) 64 + min (n + 1) 64) :=
            List.range'_append_1 off (min (n + 1) 64) (n + 1 - min (n + 1) 64)
        _ = List.range' off (n + 1) := by rw [this]

theorem renderLoop_chunk_bounds : ∀ (n off : Nat),
    ∀ w ∈ renderLoop n off, 0 < w.2 ∧ w.2 ≤ 64 := by
  intro n
  induction n using Nat.strong_induction_on with
  | _ n ih =>
    intro off w hw
    match n with
    | 0 => simp [renderLoop, renderLoopFuel] at hw
    | n + 1 =>
      rw [renderLoop_eq] at hw
      simp only [Nat.succ_ne_zero, if_false, List.mem_cons] at hw
      have hc : 1 ≤ min (n + 1) 64 := le_min (Nat.succ_le_succ (Nat.zero_le n)) (by omega)
      rcases hw with h | h
      · subst h; exact ⟨hc, Nat.min_le_right _ _⟩
      · exact ih _ (by omega) _ _ h

theorem renderLoop_length : ∀ (n off : Nat),
    (renderLoop n off).length = (n + 63) / 64 := by
  intro n
  induction n using Nat.strong_induction_on with
  | _ n ih =>
    intro off
    match n with
    | 0 => simp [renderLoop, renderLoopFuel]
    | n + 1 =>
      rw [renderLoop_eq]
      simp only [Nat.succ_ne_zero, if_false, List.length_cons]
      have hc : 1 ≤ min (n + 1) 64 := le_min (Nat.succ_le_succ (Nat.zero_le n)) (by omega)
      rw [ih _ (by omega)]
      omega

/-- Claim C5: for every render request of sample_count frames, including
counts smaller than, equal to, and not a multiple of the 64-frame chunk
capacity, the frames written by the chunked loop at their running
offsets are exactly 0, 1, ..., sample_count - 1 in order: every frame
is written exactly once at its correct offset, and every chunk is
non-empty and at most the fixed capacity 64 (the last chunk may be
short). -/
theorem render_writes_exactly_sample_count (sample_count : Nat) :
    (renderLoop sample_count 0).flatMap (fun w => List.range' w.1 w.2) =
        List.range sample_count ∧
    (renderLoop sample_count 0).all
        (fun w => decide (0 < w.2 ∧ w.2 ≤ 64)) = true := by
  constructor
  · rw [renderLoop_cover, List.range_eq_range']
  · rw [List.all_eq_true]
    intro w hw
    exact decide_eq_true_eq.mpr (renderLoop_chunk_bounds sample_count 0 w hw)

/-- Claim C10: the chunked render loop terminates for every
sample_count: the chunk taken in each iteration is min(remaining, 64),
positive whenever remaining is positive, each iteration strictly
decreases remaining, the total number of iterations is the finite value
ceil(sample_count / 64), and a request of 0 frames performs no
iterations and writes nothing. -/
theorem render_loop_terminates :
    (∀ off, renderLoop 0 off = [] ∧
      (renderLoop 0 off).flatMap (fun w => List.range' w.1 w.2) = []) ∧
    (∀ n off, 0 < n →
      0 < min n 64 ∧ n - min n 64 < n ∧
      renderLoop n off =
        (off, min n 64) :: renderLoop (n - min n 64) (off + min n 64)) ∧
    (∀ n off, (renderLoop n off).length = (n + 63) / 64) := by
  refine ⟨fun off => ⟨rfl, rfl⟩, fun n off hn => ?_, renderLoop_length⟩
  have hc : 0 < min n 64 := lt_min hn (by omega)
  exact ⟨hc, by omega, by rw [renderLoop_eq]; simp [Nat.pos_iff_ne_zero.mp hn]⟩

/-- Witness for C10 at sample_count 130: three iterations of sizes
64, 64, 2. -/
theorem render_loop_terminates_witness :
    0 < 130 ∧
    (0 < min 130 64 ∧ 130 - min 130 64 < 130 ∧
      renderLoop 130 0 =
        (0, min 130 64) :: renderLoop (130 - min 130 64) (0 + min 130 64)) ∧
    (renderLoop 130 0).length = (130 + 63) / 64 :=
  ⟨by decide, render_loop_terminates.2.1 130 0 (by decide),
    render_loop_terminates.2.2 130 0⟩

/-! ### Preset-scan lemmas -/

theorem foldl_count_aux (p : Nat → Bool) :
    ∀ (l : List Nat) (a : Nat),
      l.foldl (fun acc x => if p x then acc + 1 else acc) a
        = a + (l.filter p).length := by
  intro l
  induction l with
  | nil => simp
  | cons x l ih =>
    intro a
    by_cases h : p x
    · simp [List.filter_cons, h, ih]
      omega
    · simp [List.filter_cons, h, ih]

theorem foldl_add_sum (g : Nat → Nat) :
    ∀ (l : List Nat) (a : Nat),
      l.foldl (fun acc b => acc + g b) a = a + (l.map g).sum := by
  intro l
  induction l with
  | nil => simp
  | cons x l ih =>
    intro a
    simp [ih, Nat.add_assoc]

theorem countPresets_eq_length (present : Nat → Nat → Bool) :
    countPresets present = (scanPrograms present).length := by
  unfold countPresets scanPrograms
  rw [List.length_flatMap]
  have hfun : (fun acc bank => (List.range 128).foldl
        (fun acc2 prog => if present bank prog then acc2 + 1 else acc2) acc)
      = fun (acc bank : Nat) =>
          acc + ((List.range 128).filter (fun prog => present bank prog)).length := by
    funext acc bank
    exact foldl_count_aux (present bank) (List.range 128) acc
  rw [hfun, foldl_add_sum
    (fun bank => ((List.range 128).filter (fun prog => present bank prog)).length)]
  simp [Function.comp_def, List.length_map]

theorem rowOf_pairwise (present : Nat → Nat → Bool) (bank : Nat) :
    (((List.range 128).filter (fun prog => present bank prog)).map
      (fun prog => ({ bank := bank, prog := prog } : BankProgram))).Pairwise bpLt := by
  rw [List.pairwise_map]
  exact ((List.pairwise_lt_range 128).filter
    (fun prog => present bank prog)).imp (fun h => Or.inr ⟨rfl, h⟩)

theorem pairwise_flatMap_rows (row : Nat → List BankProgram)
    (hrow : ∀ b, (row b).Pairwise bpLt)
    (hbank : ∀ b x, x ∈ row b → x.bank = b) :
    ∀ (l : List Nat), l.Pairwise (· < ·) → (l.flatMap row).Pairwise bpLt := by
  intro l
  induction l with
  | nil => intro _; simp
  | cons b l ih =>
    intro hl
    rw [List.flatMap_cons, List.pairwise_append]
    refine ⟨hrow b, ih hl.of_cons, ?_⟩
    intro x hx y hy
    rcases List.mem_flatMap.mp hy with ⟨b', hb', hyb'⟩
    have h1 : x.bank = b := hbank b x hx
    have h2 : y.bank = b' := hbank b' y hyb'
    have h3 : b < b' := List.rel_of_pairwise_cons hl hb'
    exact Or.inl (by omega)

theorem scanPrograms_pairwise (present : Nat → Nat → Bool) :
    (scanPrograms present).Pairwise bpLt := by
  unfold scanPrograms
  refine pairwise_flatMap_rows _ (rowOf_pairwise present) ?_ _
    (List.pairwise_lt_range 129)
  intro b x hx
  rcases List.mem_map.mp hx with ⟨prog, _, rfl⟩
  rfl

theorem mem_scanPrograms (present : Nat → Nat → Bool) (bp : BankProgram) :
    bp ∈ scanPrograms present ↔
      bp.bank < 129 ∧ bp.prog < 128 ∧ present bp.bank bp.prog = true := by
  unfold scanPrograms
  simp only [List.mem_flatMap, List.mem_map, List.mem_filter, List.mem_range]
  constructor
  · rintro ⟨bank, hbank, prog, ⟨hprog, hpres⟩, rfl⟩
    exact ⟨hbank, hprog, hpres⟩
  · rintro ⟨h1, h2, h3⟩
    exact ⟨bp.bank, h1, bp.prog, ⟨h2, h3⟩, rfl⟩

theorem scanPrograms_all_absent :
    scanPrograms (fun _ _ => false) = [] := by
  rw [List.eq_nil_iff_forall_not_mem]
  intro bp h
  have := (mem_scanPrograms (fun _ _ => false) bp).mp h
  simp at this

theorem countPresets_all_absent : countPresets (fun _ _ => false) = 0 := by
  rw [countPresets_eq_length, scanPrograms_all_absent]
  rfl

/-- Claim C2: the preset table is built by scanning banks 0..128 and
programs 0..127 in order, keeping exactly the populated pairs; its
length equals the program count reported by the counting loop, and its
entries are strictly increasing in (bank, program) lexicographic
order. -/
theorem preset_table_scan_order (present : Nat → Nat → Bool) :
    (scanPrograms present).length = countPresets present ∧
    (scanPrograms present).Pairwise bpLt ∧
    ∀ bp : BankProgram, bp ∈ scanPrograms present ↔
      bp.bank < 129 ∧ bp.prog < 128 ∧ present bp.bank bp.prog = true :=
  ⟨(countPresets_eq_length present).symm, scanPrograms_pairwise present,
    mem_scanPrograms present⟩

/-- Counterexample to claim C3 as stated: with the urid:map feature
present, the FluidSynth settings and synth constructed, the sound bank
loaded, and every allocation succeeding (glibc calloc returns a
non-null pointer even for a zero-element request), a sound bank whose
scan finds zero presets still instantiates successfully: the C code
never tests program_count against 0, so no failure path is taken. -/
theorem zero_presets_instantiation_succeeds :
    countPresets (fun _ _ => false) = 0 ∧
    instantiate true true true true (some 1) true true true
        (fun _ _ => false) = some (initialPlugin 1 0 []) := by
  refine ⟨countPresets_all_absent, ?_⟩
  unfold instantiate load_soundfont
  simp [countPresets_all_absent, scanPrograms_all_absent]

/-- Claim C3 (amended): instantiation fails exactly when the instance
allocation, the urid:map feature, the FluidSynth settings or synth
construction, the sound-bank load, the get-sfont call, the program
array allocation, or the buffer allocation fails — a preset count of
zero is not checked and causes no failure: with all of those
succeeding, instantiation returns an instance whose program_count is
the scan count (possibly 0) and whose preset table is the scan
result. -/
theorem instantiate_failure_characterization
    (aP mOk sOk syOk : Bool) (sfl : Option Int) (sfOk aPr aB : Bool)
    (present : Nat → Nat → Bool) :
    (instantiate aP mOk sOk syOk sfl sfOk aPr aB present = none ↔
      aP = false ∨ mOk = false ∨ sOk = false ∨ syOk = false ∨ sfl = none ∨
        sfOk = false ∨ aPr = false ∨ aB = false) ∧
    (∀ sid, sfl = some sid → aP = true → mOk = true → sOk = true →
      syOk = true → sfOk = true → aPr = true → aB = true →
      instantiate aP mOk sOk syOk sfl sfOk aPr aB present =
        some (initialPlugin sid (countPresets present) (scanPrograms present))) := by
  constructor
  · cases aP <;> cases mOk <;> cases sOk <;> cases syOk <;> cases sfl <;>
      cases sfOk <;> cases aPr <;> cases aB <;>
      simp [instantiate, load_soundfont]
  · rintro sid rfl rfl rfl rfl rfl rfl rfl rfl
    simp [instantiate, load_soundfont]

/-- Witness for the amended C3 at a concrete zero-preset environment:
instantiation succeeds with program_count 0. -/
theorem instantiate_failure_characterization_witness :
    instantiate true true true true (some 7) true true true
        (fun _ _ => false) =
      some (initialPlugin 7 (countPresets (fun _ _ => false))
        (scanPrograms (fun _ _ => false))) :=
  (instantiate_failure_characterization true true true true (some 7) true true
    true (fun _ _ => false)).2 7 rfl rfl rfl rfl rfl rfl rfl rfl

/-! ### MIDI dispatch claims -/

/-- Claim C8: for every key, a Note-On status byte (high nibble 0x90,
any channel nibble) with velocity 0 dispatches to exactly the same
engine call as a Note-Off status byte (high nibble 0x80, any channel
nibble, any release velocity) for that key, namely a note-off; and a
Note-On with positive velocity dispatches to a note-on call. -/
theorem noteon_velocity_zero_is_noteoff (b0 b0' key vel vel' : Nat)
    (h90 : b0 &&& 0xF0 = 0x90) (h80 : b0' &&& 0xF0 = 0x80) :
    dispatchMidi b0 key 0 = dispatchMidi b0' key vel' ∧
    (0 < vel → dispatchMidi b0 key vel = [EngineCall.noteon 0 key vel]) := by
  constructor
  · simp [dispatchMidi, h90, h80]
  · intro hv
    simp [dispatchMidi, h90, hv]

/-- Witness for C8 with status bytes 0x93 and 0x81 (channel nibbles 3
and 1), key 60: both dispatch to the same note-off call, and velocity
5 dispatches to a note-on. -/
theorem noteon_velocity_zero_is_noteoff_witness :
    dispatchMidi 0x93 60 0 = dispatchMidi 0x81 60 7 ∧
    (0 < 5 → dispatchMidi 0x93 60 5 = [EngineCall.noteon 0 60 5]) :=
  noteon_velocity_zero_is_noteoff 0x93 0x81 60 5 7 (by decide) (by decide)

/-- Claim C9: every engine call issued by the MIDI event dispatcher
(note-on, note-off, control change, pitch bend) carries MIDI channel 0,
regardless of the channel nibble of the status byte. -/
theorem dispatch_channel_always_zero (b0 b1 b2 : Nat) :
    ∀ c ∈ dispatchMidi b0 b1 b2, chanOf c = some 0 := by
  intro c hc
  by_cases h1 : b0 &&& 0xF0 = 0x90
  · by_cases h2 : 0 < b2
    · simp [dispatchMidi, h1, h2] at hc
      subst hc; rfl
    · simp [dispatchMidi, h1, h2] at hc
      subst hc; rfl
  · by_cases h3 : b0 &&& 0xF0 = 0x80
    · simp [dispatchMidi, h1, h3] at hc
      subst hc; rfl
    · by_cases h4 : b0 &&& 0xF0 = 0xB0
      · simp [dispatchMidi, h1, h3, h4] at hc
        subst hc; rfl
      · by_cases h5 : b0 &&& 0xF0 = 0xE0
        · simp [dispatchMidi, h1, h3, h4, h5] at hc
          subst hc; rfl
        · simp [dispatchMidi, h1, h3, h4, h5] at hc

/-- Witness for C9: a note-on event on status byte 0x95 (channel
nibble 5) still reaches the engine on channel 0. -/
theorem dispatch_channel_always_zero_witness :
    chanOf (EngineCall.noteon 0 60 100) = some 0 :=
  dispatch_channel_always_zero 0x95 60 100 (EngineCall.noteon 0 60 100)
    (by decide)

/-! ### Control-cache lemmas -/

theorem diffStep_prev (prev : Rat) (t : Bool) (port : Rat) (num : Nat)
    (f : Rat → Int) : (diffStep prev t port num f).1.1 = port := by
  unfold diffStep
  split_ifs with h
  · rfl
  · simp only [ne_eq, not_not] at h
    exact h.symm

theorem diffStep_calls (prev : Rat) (t : Bool) (port : Rat) (num : Nat)
    (f : Rat → Int) :
    (diffStep prev t port num f).2 =
      if port ≠ prev then [EngineCall.cc 0 num (f port)] else [] := by
  unfold diffStep
  split_ifs <;> rfl

theorem diffStep_countP_self (prev : Rat) (t : Bool) (port : Rat) (num : Nat)
    (f : Rat → Int) :
    ((diffStep prev t port num f).2).countP (isCCNum num) =
      if port ≠ prev then 1 else 0 := by
  rw [diffStep_calls]
  split_ifs <;> simp [isCCNum]

theorem diffStep_countP_other (prev : Rat) (t : Bool) (port : Rat)
    (num num' : Nat) (f : Rat → Int) (h : num' ≠ num) :
    ((diffStep prev t port num f).2).countP (isCCNum num') = 0 := by
  rw [diffStep_calls]
  split_ifs <;> simp [isCCNum, Ne.symm h]

theorem controlDiff_ci (p : Plugin) (ports : Ports) :
    (controlDiff p ports).1.controls_initialized = p.controls_initialized := by
  unfold controlDiff
  split_ifs <;> rfl

theorem controlDiff_prevOf (p : Plugin) (ports : Ports) (k : Fin 6)
    (h : p.controls_initialized = true) :
    prevOf (controlDiff p ports).1 k = portOf ports k := by
  fin_cases k <;> simp [controlDiff, h, prevOf, portOf, diffStep_prev]

theorem controlDiff_countP (p : Plugin) (ports : Ports) (k : Fin 6)
    (h : p.controls_initialized = true) :
    ((controlDiff p ports).2).countP (isCCNum (ccNum k)) =
      if portOf ports k ≠ prevOf p k then 1 else 0 := by
  fin_cases k <;>
    simp [controlDiff, h, ccNum, portOf, prevOf, List.countP_append,
      diffStep_countP_self, diffStep_countP_other]

theorem initControls_of_initialized (p : Plugin) (ports : Ports)
    (h : p.controls_initialized = true) : initControls p ports = p := by
  unfold initControls
  simp [h]

theorem initControls_seed (p : Plugin) (ports : Ports)
    (h1 : p.controls_initialized = false) (h2 : p.preset_just_changed = false) :
    (∀ k, prevOf (initControls p ports) k = portOf ports k) ∧
    (initControls p ports).controls_initialized = true := by
  constructor
  · intro k
    fin_cases k <;> simp [initControls, h1, h2, prevOf, portOf]
  · simp [initControls, h1, h2]

theorem initControls_fields (p : Plugin) (ports : Ports) :
    (initControls p ports).current_program = p.current_program ∧
    (initControls p ports).program_count = p.program_count ∧
    (initControls p ports).programs = p.programs ∧
    (initControls p ports).sfont_id = p.sfont_id ∧
    (initControls p ports).preset_just_changed = p.preset_just_changed := by
  unfold initControls
  split_ifs <;> exact ⟨rfl, rfl, rfl, rfl, rfl⟩

theorem controlDiff_fields (p : Plugin) (ports : Ports) :
    (controlDiff p ports).1.current_program = p.current_program ∧
    (controlDiff p ports).1.program_count = p.program_count ∧
    (controlDiff p ports).1.programs = p.programs ∧
    (controlDiff p ports).1.sfont_id = p.sfont_id ∧
    (controlDiff p ports).1.preset_just_changed = p.preset_just_changed := by
  unfold controlDiff
  split_ifs <;> exact ⟨rfl, rfl, rfl, rfl, rfl⟩

theorem preProgramState_fields (p : Plugin) (ports : Ports) :
    (preProgramState p ports).current_program = p.current_program ∧
    (preProgramState p ports).program_count = p.program_count ∧
    (preProgramState p ports).programs = p.programs ∧
    (preProgramState p ports).sfont_id = p.sfont_id := by
  unfold preProgramState
  refine ⟨?_, ?_, ?_, ?_⟩
  · exact (controlDiff_fields (initControls p ports) ports).1.trans
      (initControls_fields p ports).1
  · exact (controlDiff_fields (initControls p ports) ports).2.1.trans
      (initControls_fields p ports).2.1
  · exact (controlDiff_fields (initControls p ports) ports).2.2.1.trans
      (initControls_fields p ports).2.2.1
  · exact (controlDiff_fields (initControls p ports) ports).2.2.2.1.trans
      (initControls_fields p ports).2.2.2.1

theorem prevOf_set_pjc (q : Plugin) (b : Bool) (k : Fin 6) :
    prevOf { q with preset_just_changed := b } k = prevOf q k := by
  fin_cases k <;> rfl

theorem preProgramState_ci (p : Plugin) (ports : Ports) :
    (preProgramState p ports).controls_initialized =
      (initControls p ports).controls_initialized := by
  unfold preProgramState
  exact controlDiff_ci (initControls p ports) ports

/-! ### Program-section lemmas -/

theorem programSection_none (p : Plugin) (ports : Ports) (res : Bool)
    (h : ports.program = none) : programSection p ports res = (p, []) := by
  unfold programSection
  rw [h]

theorem programSection_invalid (p : Plugin) (ports : Ports) (res : Bool)
    (v : Rat) (i : Int)
    (hv : ports.program = some v) (hi : cTrunc (v + 1/2) = i)
    (hne : i ≠ p.current_program) (hge : 0 ≤ i)
    (hbig : (p.program_count : Int) ≤ i) :
    programSection p ports res =
      ({ p with
          current_program := i
          prev_cutoff := ports.cutoff
          prev_resonance := ports.resonance
          prev_attack := ports.attack
          prev_decay := ports.decay
          prev_sustain := ports.sustain
          prev_release := ports.release }, []) := by
  unfold programSection
  rw [hv]
  simp only [hi]
  rw [if_pos ⟨hne, hge⟩]
  unfold handle_program_change
  rw [if_pos (Or.inr hbig)]

theorem programSection_valid (p : Plugin) (ports : Ports) (res : Bool)
    (v : Rat) (i : Int)
    (hv : ports.program = some v) (hi : cTrunc (v + 1/2) = i)
    (hne : i ≠ p.current_program) (hge : 0 ≤ i)
    (hlt : i < (p.program_count : Int)) :
    programSection p ports res =
      ({ p with
          current_program := i
          prev_cutoff := ports.cutoff
          prev_resonance := ports.resonance
          prev_attack := ports.attack
          prev_decay := ports.decay
          prev_sustain := ports.sustain
          prev_release := ports.release
          touched_cutoff := false
          touched_resonance := false
          touched_attack := false
          touched_decay := false
          touched_sustain := false
          touched_release := false
          preset_just_changed := true },
       [EngineCall.all_notes_off (-1), EngineCall.all_sounds_off (-1),
        EngineCall.bank_select 0
          (p.programs.getD i.toNat { bank := 0, prog := 0 }).bank,
        EngineCall.sfont_select 0 p.sfont_id,
        EngineCall.program_change 0
          (p.programs.getD i.toNat { bank := 0, prog := 0 }).prog,
        EngineCall.cc 0 21 0, EngineCall.cc 0 22 0, EngineCall.cc 0 23 0,
        EngineCall.cc 0 24 0, EngineCall.cc 0 25 0, EngineCall.cc 0 26 0]) := by
  unfold programSection
  rw [hv]
  simp only [hi]
  rw [if_pos ⟨hne, hge⟩]
  unfold handle_program_change
  rw [if_neg (by omega)]

/-! ### Claim C6: parameter-cache change detection -/

/-- Claim C6: for each of the six cached continuous control ports
(cutoff, resonance, attack, decay, sustain, release) and every render
block, under the reachable-state invariant that a pending preset change
implies the cache is initialized: if the cache is uninitialized, the
control section seeds last-applied values from the ports and marks them
initialized while issuing no CC for that control; otherwise it issues
exactly one CC for that control if and only if the port value differs
bit-exactly from the last applied value, and afterwards the last
applied value equals the port value. -/
theorem control_cache_change_detection (p : Plugin) (ports : Ports) (k : Fin 6)
    (hinv : p.preset_just_changed = true → p.controls_initialized = true) :
    (p.controls_initialized = false →
      ((controlDiff (initControls p ports) ports).1.controls_initialized = true ∧
       prevOf (controlDiff (initControls p ports) ports).1 k = portOf ports k ∧
       ((controlDiff (initControls p ports) ports).2).countP
         (isCCNum (ccNum k)) = 0)) ∧
    (p.controls_initialized = true →
      (prevOf (controlDiff (initControls p ports) ports).1 k = portOf ports k ∧
       ((controlDiff (initControls p ports) ports).2).countP
           (isCCNum (ccNum k)) =
         (if portOf ports k ≠ prevOf p k then 1 else 0))) := by
  constructor
  · intro hci
    have hpjc : p.preset_just_changed = false := by
      cases hp : p.preset_just_changed
      · rfl
      · rw [hinv hp] at hci; exact absurd hci (by simp)
    have hseed := initControls_seed p ports hci hpjc
    refine ⟨(controlDiff_ci _ _).trans hseed.2, ?_, ?_⟩
    · exact controlDiff_prevOf _ _ k hseed.2
    · rw [controlDiff_countP _ _ k hseed.2, hseed.1 k]
      simp
  · intro hci
    rw [initControls_of_initialized p ports hci]
    exact ⟨controlDiff_prevOf _ _ k hci, controlDiff_countP _ _ k hci⟩

/-- Constant port values used by concrete witnesses: cutoff held at 1/3,
no program or level connection, no events. -/
def constPorts : Ports :=
  { cutoff := 1/3, resonance := 0, attack := 0, decay := 0, sustain := 0,
    release := 0, level := none, program := none, events := [] }

/-- Witness for C6 at the freshly instantiated one-preset plugin and
the constant ports: the first block initializes the cache for control 0
(cutoff) without a CC call. -/
theorem control_cache_change_detection_witness :
    ((initialPlugin 1 1 [{ bank := 0, prog := 0 }]).controls_initialized = false →
      ((controlDiff (initControls (initialPlugin 1 1 [{ bank := 0, prog := 0 }])
          constPorts) constPorts).1.controls_initialized = true ∧
       prevOf (controlDiff (initControls (initialPlugin 1 1 [{ bank := 0, prog := 0 }])
          constPorts) constPorts).1 0 = portOf constPorts 0 ∧
       ((controlDiff (initControls (initialPlugin 1 1 [{ bank := 0, prog := 0 }])
          constPorts) constPorts).2).countP (isCCNum (ccNum 0)) = 0)) ∧
    ((initialPlugin 1 1 [{ bank := 0, prog := 0 }]).controls_initialized = true →
      (prevOf (controlDiff (initControls (initialPlugin 1 1 [{ bank := 0, prog := 0 }])
          constPorts) constPorts).1 0 = portOf constPorts 0 ∧
       ((controlDiff (initControls (initialPlugin 1 1 [{ bank := 0, prog := 0 }])
          constPorts) constPorts).2).countP (isCCNum (ccNum 0)) =
         (if portOf constPorts 0 ≠ prevOf (initialPlugin 1 1 [{ bank := 0, prog := 0 }]) 0
          then 1 else 0))) :=
  control_cache_change_detection (initialPlugin 1 1 [{ bank := 0, prog := 0 }])
    constPorts 0 (by decide)

/-! ### Claim C1: out-of-range program change -/

/-- A concrete one-preset plugin state with program 0 selected and the
control cache initialized at 0, used by counterexamples. -/
def cexPlugin : Plugin :=
  { initialPlugin 1 1 [{ bank := 0, prog := 0 }] with
      current_program := 0, controls_initialized := true }

/-- Ports requesting the out-of-range program index 5. -/
def cexPorts : Ports :=
  { cutoff := 0, resonance := 0, attack := 0, decay := 0, sustain := 0,
    release := 0, level := none, program := some 5, events := [] }

/-- Counterexample to claim C1 as stated: at the concrete one-preset
state, the program port requests rounded index 5 ≥ program_count = 1;
handle_program_change rejects it, but the run callback still overwrites
current_program with 5, so the plugin state does not remain unchanged
and the selected index is no longer a valid subscript into the preset
table. -/
theorem invalid_program_change_state_changes :
    (runModel cexPlugin cexPorts true 0).1.current_program ≠
        cexPlugin.current_program ∧
    ¬((runModel cexPlugin cexPorts true 0).1.current_program <
        ((runModel cexPlugin cexPorts true 0).1.program_count : Int)) := by
  have hi5 : cTrunc ((5 : Rat) + 1/2) = 5 := by
    unfold cTrunc
    norm_num
    decide
  have hps := programSection_invalid (preProgramState cexPlugin cexPorts)
    cexPorts true 5 5 rfl hi5
    (by rw [(preProgramState_fields cexPlugin cexPorts).1]; decide)
    (by decide)
    (by rw [(preProgramState_fields cexPlugin cexPorts).2.1]; decide)
  constructor
  · simp only [runModel, hps]
    decide
  · simp only [runModel, hps]
    have hpc : (preProgramState cexPlugin cexPorts).program_count =
        cexPlugin.program_count :=
      (preProgramState_fields cexPlugin cexPorts).2.1
    simp only [hpc]
    decide

/-- Claim C1 (amended): for a program-change request whose rounded
index i satisfies i ≥ program_count (with i ≥ 0 and i different from
the current index), handle_program_change itself is a no-op — it makes
no synthesis-engine calls and leaves the state unchanged — but the run
callback nevertheless records i as current_program and refreshes the
six cached previous control values from the ports; consequently the
recorded program index can become an invalid subscript into the preset
table. -/
theorem invalid_program_change_no_calls (p : Plugin) (ports : Ports)
    (res : Bool) (n : Nat) (v : Rat) (i : Int)
    (hv : ports.program = some v) (hi : cTrunc (v + 1/2) = i)
    (hne : i ≠ p.current_program) (hge : 0 ≤ i)
    (hbig : (p.program_count : Int) ≤ i) :
    (∀ q : Plugin, q.program_count = p.program_count →
      handle_program_change q i res = (q, [])) ∧
    (runModel p ports res n).1.current_program = i ∧
    (∀ k, prevOf (runModel p ports res n).1 k = portOf ports k) ∧
    (runModel p ports res n).2 =
      (controlDiff (initControls p ports) ports).2 ++ levelSection ports
        ++ midiSection ports.events
        ++ (renderLoop n 0).map (fun w => EngineCall.write_float w.2) := by
  have hps := programSection_invalid (preProgramState p ports) ports res v i hv hi
    (by rw [(preProgramState_fields p ports).1]; exact hne) hge
    (by rw [(preProgramState_fields p ports).2.1]; exact hbig)
  refine ⟨?_, ?_, ?_, ?_⟩
  · intro q hq
    unfold handle_program_change
    rw [if_pos (Or.inr (by rw [hq]; exact hbig))]
  · simp only [runModel, hps]
  · intro k
    simp only [runModel, hps]
    fin_cases k <;> rfl
  · simp only [runModel, hps, List.append_nil]

/-- Witness for the amended C1 at the concrete counterexample state:
the rejected request 5 makes no handle_program_change calls yet is
recorded as current. -/
theorem invalid_program_change_no_calls_witness :
    (∀ q : Plugin, q.program_count = cexPlugin.program_count →
      handle_program_change q 5 true = (q, [])) ∧
    (runModel cexPlugin cexPorts true 0).1.current_program = 5 ∧
    (∀ k, prevOf (runModel cexPlugin cexPorts true 0).1 k = portOf cexPorts k) ∧
    (runModel cexPlugin cexPorts true 0).2 =
      (controlDiff (initControls cexPlugin cexPorts) cexPorts).2
        ++ levelSection cexPorts ++ midiSection cexPorts.events
        ++ (renderLoop 0 0).map (fun w => EngineCall.write_float w.2) :=
  invalid_program_change_no_calls cexPlugin cexPorts true 0 5 5 rfl
    (by unfold cTrunc; norm_num; decide) (by decide) (by decide) (by decide)

/-! ### Claim C4: valid program change -/

/-- Ports requesting the valid program index 0. -/
def validPorts : Ports :=
  { cutoff := 0, resonance := 0, attack := 0, decay := 0, sustain := 0,
    release := 0, level := none, program := some 0, events := [] }

/-- Claim C4: for every valid program change to index i (0 ≤ i <
program_count) triggered by the program port, the run callback issues,
between the control-diff calls and the level/MIDI/render calls of the
same block, exactly this engine-call sequence: silence all voices
(all_notes_off then all_sounds_off), select the bank and program stored
at preset-table entry i (bank_select, sfont_select, program_change),
then reset the six control CCs 21-26 to their default 0; and
current_program advances to i for either value of the engine-level
program-change result. -/
theorem valid_program_change_sequence (p : Plugin) (ports : Ports)
    (res : Bool) (n : Nat) (v : Rat) (i : Int)
    (hv : ports.program = some v) (hi : cTrunc (v + 1/2) = i)
    (hne : i ≠ p.current_program) (hge : 0 ≤ i)
    (hlt : i < (p.program_count : Int)) :
    (runModel p ports res n).1.current_program = i ∧
    (runModel p ports res n).2 =
      (controlDiff (initControls p ports) ports).2
        ++ [EngineCall.all_notes_off (-1), EngineCall.all_sounds_off (-1),
            EngineCall.bank_select 0
              (p.programs.getD i.toNat { bank := 0, prog := 0 }).bank,
            EngineCall.sfont_select 0 p.sfont_id,
            EngineCall.program_change 0
              (p.programs.getD i.toNat { bank := 0, prog := 0 }).prog,
            EngineCall.cc 0 21 0, EngineCall.cc 0 22 0, EngineCall.cc 0 23 0,
            EngineCall.cc 0 24 0, EngineCall.cc 0 25 0, EngineCall.cc 0 26 0]
        ++ levelSection ports ++ midiSection ports.events
        ++ (renderLoop n 0).map (fun w => EngineCall.write_float w.2) := by
  have hps := programSection_valid (preProgramState p ports) ports res v i hv hi
    (by rw [(preProgramState_fields p ports).1]; exact hne) hge
    (by rw [(preProgramState_fields p ports).2.1]; exact hlt)
  rw [(preProgramState_fields p ports).2.2.1,
    (preProgramState_fields p ports).2.2.2] at hps
  constructor
  · simp only [runModel, hps]
  · simp only [runModel, hps]

/-- Witness for C4: from the freshly instantiated one-preset plugin,
requesting program 0 produces the silence/select/reset sequence and
records program 0 as current. -/
theorem valid_program_change_sequence_witness :
    (runModel (initialPlugin 1 1 [{ bank := 0, prog := 0 }]) validPorts
        true 3).1.current_program = 0 ∧
    (runModel (initialPlugin 1 1 [{ bank := 0, prog := 0 }]) validPorts true 3).2 =
      (controlDiff (initControls (initialPlugin 1 1 [{ bank := 0, prog := 0 }])
          validPorts) validPorts).2
        ++ [EngineCall.all_notes_off (-1), EngineCall.all_sounds_off (-1),
            EngineCall.bank_select 0
              (((initialPlugin 1 1 [{ bank := 0, prog := 0 }]).programs).getD
                (Int.toNat 0) { bank := 0, prog := 0 }).bank,
            EngineCall.sfont_select 0
              (initialPlugin 1 1 [{ bank := 0, prog := 0 }]).sfont_id,
            EngineCall.program_change 0
              (((initialPlugin 1 1 [{ bank := 0, prog := 0 }]).programs).getD
                (Int.toNat 0) { bank := 0, prog := 0 }).prog,
            EngineCall.cc 0 21 0, EngineCall.cc 0 22 0, EngineCall.cc 0 23 0,
            EngineCall.cc 0 24 0, EngineCall.cc 0 25 0, EngineCall.cc 0 26 0]
        ++ levelSection validPorts ++ midiSection validPorts.events
        ++ (renderLoop 3 0).map (fun w => EngineCall.write_float w.2) :=
  valid_program_change_sequence (initialPlugin 1 1 [{ bank := 0, prog := 0 }])
    validPorts true 3 0 0 rfl (by unfold cTrunc; norm_num; decide) (by decide)
    (by decide) (by decide)

/-! ### Claim C7: constant controls across blocks -/

theorem countP_levelSection (ports : Ports) (m : Nat) :
    (levelSection ports).countP (isCCNum m) = 0 := by
  cases hl : ports.level <;> simp [levelSection, hl, isCCNum]

theorem countP_renderCalls (n m : Nat) :
    ((renderLoop n 0).map (fun w => EngineCall.write_float w.2)).countP
      (isCCNum m) = 0 := by
  rw [List.countP_eq_zero]
  intro c hc
  rcases List.mem_map.mp hc with ⟨w, _, rfl⟩
  simp [isCCNum]

theorem runModel_no_change_no_calls (p : Plugin) (ports : Ports) (res : Bool)
    (n : Nat)
    (hpr : ports.program = none) (hev : ports.events = [])
    (hp : (p.controls_initialized = true ∧ ∀ j, prevOf p j = portOf ports j) ∨
          (p.controls_initialized = false ∧ p.preset_just_changed = false)) :
    (runModel p ports res n).1.controls_initialized = true ∧
    (∀ j, prevOf (runModel p ports res n).1 j = portOf ports j) ∧
    (∀ k : Fin 6, ((runModel p ports res n).2).countP (isCCNum (ccNum k)) = 0) := by
  have hps := programSection_none (preProgramState p ports) ports res hpr
  have hci2 : (initControls p ports).controls_initialized = true := by
    rcases hp with ⟨h1, _⟩ | ⟨h1, h2⟩
    · rw [initControls_of_initialized p ports h1]; exact h1
    · exact (initControls_seed p ports h1 h2).2
  have hprev2 : ∀ j, prevOf (initControls p ports) j = portOf ports j := by
    rcases hp with ⟨h1, h2⟩ | ⟨h1, h2⟩
    · rw [initControls_of_initialized p ports h1]; exact h2
    · exact (initControls_seed p ports h1 h2).1
  refine ⟨?_, ?_, ?_⟩
  · simp only [runModel, hps]
    rw [preProgramState_ci]
    exact hci2
  · intro j
    simp only [runModel, hps]
    unfold preProgramState
    rw [prevOf_set_pjc]
    exact controlDiff_prevOf _ _ j hci2
  · intro k
    simp only [runModel, hps]
    rw [hev]
    simp only [midiSection, List.flatMap_nil, List.countP_append]
    rw [controlDiff_countP _ _ k hci2, hprev2 k, countP_levelSection,
      countP_renderCalls]
    simp

/-- Claim C7 (amended): a cached continuous control held at a constant
value across N consecutive render blocks with no program-change request
and no MIDI traffic triggers zero engine update calls for that control,
not one and not N: the first block's cache initialization deliberately
suppresses the first update, and every later block detects no change.
(CC traffic for a cached control can only come from a program change,
whose handler resets the control CCs to 0.) -/
theorem constant_control_no_update_calls (p : Plugin) (ports : Ports)
    (res : Bool) (n N : Nat) (k : Fin 6)
    (hci : p.controls_initialized = false)
    (hpjc : p.preset_just_changed = false)
    (hpr : ports.program = none) (hev : ports.events = []) :
    ((runN p ports res n N).2).countP (isCCNum (ccNum k)) = 0 := by
  suffices h : ∀ (N : Nat) (q : Plugin),
      ((q.controls_initialized = true ∧ ∀ j, prevOf q j = portOf ports j) ∨
       (q.controls_initialized = false ∧ q.preset_just_changed = false)) →
      ((runN q ports res n N).2).countP (isCCNum (ccNum k)) = 0 by
    exact h N p (Or.inr ⟨hci, hpjc⟩)
  intro N
  induction N with
  | zero =>
    intro q _
    simp [runN]
  | succ N ih =>
    intro q hq
    have hstep := runModel_no_change_no_calls q ports res n hpr hev hq
    simp only [runN, List.countP_append]
    rw [hstep.2.2 k, ih _ (Or.inl ⟨hstep.1, hstep.2.1⟩)]

/-- Ports with every control held constant at 0 and no program, level
or event traffic. -/
def steadyPorts : Ports :=
  { cutoff := 0, resonance := 0, attack := 0, decay := 0, sustain := 0,
    release := 0, level := none, program := none, events := [] }

/-- Counterexample to claim C7 as stated: from the freshly instantiated
one-preset plugin, holding every control port constant for N = 2 blocks
issues zero CC calls for the cutoff control (CC 21), not exactly one:
the first block's cache initialization suppresses the first update
rather than issuing it. -/
theorem constant_control_not_one_call :
    ¬(((runN (initialPlugin 1 1 [{ bank := 0, prog := 0 }]) steadyPorts
        true 0 2).2).countP (isCCNum 21) = 1) := by
  decide

/-- Witness for the amended C7: the same two-block constant-control run
issues zero CC calls for the cutoff control. -/
theorem constant_control_no_update_calls_witness :
    ((runN (initialPlugin 1 1 [{ bank := 0, prog := 0 }]) steadyPorts
        true 0 2).2).countP (isCCNum (ccNum 0)) = 0 :=
  constant_control_no_update_calls
    (initialPlugin 1 1 [{ bank := 0, prog := 0 }]) steadyPorts true 0 2 0
    rfl rfl rfl rfl

end SF2LV2
